import Mathlib

/-!
# Selectlist-from-API custom field

A shallow embedding of `selectlist-from-api/js/select-from-api-init.js`: the
custom field descriptor, its `ViewModel` factory, the picker configuration
`select2` it builds, and the script's registration into the host registry.

JavaScript values are an inductive type, Knockout observables are references
into an explicit store of cells, and every function of the source that can
raise is a function into `Except JSErr`.
-/

namespace SelectListFromAPI

/-! ## JavaScript values and the Knockout store -/

/-- An exception raised by the JavaScript runtime. -/
inductive JSErr where
  | TypeError (msg : String)

/-- A Knockout observable (`ko.observable`), the documented type of
`options.fieldBinding`: a reference to one cell of the store. -/
inductive Observable where
  | plain (cell : Nat)

/-- The writable computed that `extend({ throttle: ms })` builds over a target
observable; it is an object of its own, which reads through to the target. -/
inductive Computed where
  | throttled (target : Observable) (ms : Nat)

/-- A JavaScript value: JSON data, or a Knockout observable (a function object).
Numbers are the integers and NaN; plain data holds no other function. -/
inductive JSVal where
  | undefined
  | null
  | bool (b : Bool)
  | num (n : Int)
  | nan
  | str (s : String)
  | arr (items : List JSVal)
  | obj (fields : List (String × JSVal))
  | observable (o : Observable)

/-- A function stored in a member of a registry entry, kept as a reference: the
two functions of this file, or a function of another plugin. -/
inductive HookRef where
  | Render
  | ViewModel
  | foreign (name : String)

/-- A custom field type as the host registry stores it. -/
structure CustomField where
  Label : String
  ReferenceName : String
  Template : String
  Render : HookRef
  ViewModel : HookRef

/-- The state of the host page the script runs in. `cells` is the Knockout store
(the newest binding of a cell comes first, a cell never written holds
`undefined`), `pending` the writes that throttled computeds hold on their timers,
`CustomInputFormFields` the registry `ContentManager.Global.CustomInputFormFields`,
`currentLanguageCode` what `ContentManager.ViewModels.Navigation.currentLanguageCode()`
returns, `requests` the bodies of the search requests sent so far and `calls`
the arguments the picker's `initSelection` callback has received so far. -/
structure Host where
  cells : List (Nat × JSVal)
  pending : List (Computed × JSVal)
  CustomInputFormFields : List CustomField
  currentLanguageCode : JSVal
  requests : List JSVal
  calls : List JSVal

/-- The names of the own properties of an object, in order. -/
def ownKeys : JSVal → List String
  | .obj fields => fields.map Prod.fst
  | _ => []

/-- The conversion `ToBoolean` of JavaScript, as used by `&&` and `if`. -/
def truthy : JSVal → Bool
  | .undefined => false
  | .null => false
  | .bool b => b
  | .num n => n != 0
  | .nan => false
  | .str s => s != ""
  | .arr _ => true
  | .obj _ => true
  | .observable _ => true

/-- The member access `v.key` for a data property `key`. Reading a member of
`undefined` or `null` raises; an object gives its own property or `undefined`;
the other values have none of the data properties this program reads. -/
def getProp (v : JSVal) (key : String) : Except JSErr JSVal :=
  match v with
  | .undefined => .error (.TypeError ("Cannot read property " ++ key ++ " of undefined"))
  | .null => .error (.TypeError ("Cannot read property " ++ key ++ " of null"))
  | .obj fields => .ok ((fields.lookup key).getD .undefined)
  | _ => .ok .undefined

/-- The value an observable holds: the newest binding of its cell. -/
def koRead (h : Host) : Observable → JSVal
  | .plain cell => (h.cells.lookup cell).getD .undefined

/-- Calling an observable with one argument stores the argument in its cell at
once. -/
def koWrite (o : Observable) (v : JSVal) (h : Host) : Host :=
  match o with
  | .plain cell => { h with cells := (cell, v) :: h.cells }

/-- The function `ko.unwrap`: the current value of an observable, any other
value unchanged. -/
def koUnwrap (h : Host) : JSVal → JSVal
  | .observable o => koRead h o
  | v => v

/-- The call `v()` with no argument: an observable returns its value, anything
else is not a function. -/
def callNoArgs (h : Host) (name : String) : JSVal → Except JSErr JSVal
  | .observable o => .ok (koRead h o)
  | _ => .error (.TypeError (name ++ " is not a function"))

/-! ## The options of the factory -/

/-- The content item handed to the factory: `Values` maps a field name to the
observable (or value) of that field; a field the form lacks is absent. -/
structure ContentItem where
  Values : List (String × JSVal)

/-- The `options` parameter of `ViewModel`, with the fields its documentation
lists (`elem` is `$elem`). -/
structure Options where
  elem : JSVal
  contentItem : ContentItem
  fieldBinding : Observable
  fieldSetting : JSVal
  readonly : Bool

/-- The member access `options.contentItem.Values.<name>`. -/
def Options.value (options : Options) (name : String) : JSVal :=
  (options.contentItem.Values.lookup name).getD .undefined

/-! ## The view model -/

/-- The literal members of `select2.ajax`; `data` and `results` are the
functions `select2.ajax.data` and `select2.ajax.results` below. -/
structure AjaxConfig where
  url : String
  dataType : String
  type : String
  quietMillis : Nat
  originalValue : JSVal
  term : String
  cache : Bool

/-- The literal members of `self.select2`; its function members are the
definitions `formatResult`, `formatSelection`, `select2.matcher`, `select2.id`
and `select2.initSelection` below. -/
structure Select2Config where
  label : String
  readOnly : Bool
  value : Observable
  multiple : Bool
  maximumSelectionSize : Nat
  minimumInputLength : Nat
  placeholder : String
  ajax : AjaxConfig
  allowClear : Bool
  dropdownCssClass : String

/-- The object `self` that the factory `ViewModel` fills in. -/
structure ViewModelInstance where
  ajaxRequest : JSVal
  selectedValue : Computed
  select2 : Select2Config

/-- The function `self.formatResult`. -/
def formatResult (item : JSVal) : Except JSErr JSVal :=
  getProp item "Label"

/-- The function `self.formatSelection`. -/
def formatSelection (item : JSVal) : Except JSErr JSVal :=
  getProp item "Label"

/-- The function `select2.matcher`. -/
def select2.matcher (_term _text : JSVal) : Bool :=
  true

/-- The function `select2.id`. -/
def select2.id (obj : JSVal) : Except JSErr JSVal :=
  getProp obj "ID"

/-- The function `select2.ajax.data`. -/
def select2.ajax.data (h : Host) (term _page _params : JSVal) : JSVal :=
  .obj [("q", term), ("languageCode", h.currentLanguageCode)]

/-- The function `select2.ajax.results`. -/
def select2.ajax.results (data _page : JSVal) : JSVal :=
  .obj [("results", data)]

/-- The function `select2.initSelection`; `callback` is the continuation the
picker passes in. -/
def select2.initSelection (options : Options) (_element : JSVal)
    (callback : JSVal → Host → Except JSErr Host) (h : Host) : Except JSErr Host :=
  let val := koUnwrap h (.observable options.fieldBinding)
  let label := koUnwrap h (options.value "Title")
  if truthy val && truthy label then
    let data := JSVal.obj [("Value", val), ("Label", label)]
    callback data h
  else
    .ok h

/-- The factory `self.ViewModel`: it returns the instance built and the host
state it leaves. -/
def ViewModel (options : Options) (h : Host) : Except JSErr (ViewModelInstance × Host) := do
  let selectedValue := Computed.throttled options.fieldBinding 500
  let externalID ← callNoArgs h "options.contentItem.Values.ExternalID" (options.value "ExternalID")
  let originalValue := koUnwrap h externalID
  let select2 : Select2Config :=
    { label := "API Item ID"
      readOnly := false
      value := options.fieldBinding
      multiple := false
      maximumSelectionSize := 1
      minimumInputLength := 0
      placeholder := ""
      ajax :=
        { url := "https://\x7byou-api-url\x7d"
          dataType := "json"
          type := "post"
          quietMillis := 250
          originalValue := originalValue
          term := ""
          cache := true }
      allowClear := false
      dropdownCssClass := "bigdrop" }
  return ({ ajaxRequest := .null, selectedValue := selectedValue, select2 := select2 }, h)

/-! ## The descriptor and its registration -/

/-- The function `self.Render`. -/
def Render (_options : Options) (h : Host) : Except JSErr Host :=
  .ok h

/-- The constructor `SelectListFromAPICustomField`. -/
def SelectListFromAPICustomField : CustomField :=
  { Label := "Selectlist from API"
    ReferenceName := "SelectlistFromAPI"
    Template := "SelectListFromAPITemplate"
    Render := .Render
    ViewModel := .ViewModel }

/-- The last statement of the script:
`ContentManager.Global.CustomInputFormFields.push(new SelectListFromAPICustomField())`. -/
def loadScript (h : Host) : Host :=
  { h with CustomInputFormFields := h.CustomInputFormFields ++ [SelectListFromAPICustomField] }

/-- Constructing one view model per options object of a list, in order. -/
def constructAll : List Options → Host → List (Except JSErr ViewModelInstance) × Host
  | [], h => ([], h)
  | options :: rest, h =>
    match ViewModel options h with
    | .ok (vm, h1) =>
      let r := constructAll rest h1
      (.ok vm :: r.1, r.2)
    | .error e =>
      let r := constructAll rest h
      (.error e :: r.1, r.2)

/-! ## The picker's use of the configuration -/

/-- The callback a picker hands to `initSelection`: it records the item it is
given as the displayed selection. -/
def recordCall (item : JSVal) (h : Host) : Except JSErr Host :=
  .ok { h with calls := h.calls ++ [item] }

/-- Modelled from the spec: the operation `select(item | null)` of the picker
widget, which is not part of the source file. It sets the field value, the cell
`select2.value`, to the identifier of the item, which the picker takes with
`select2.id(item)`, or clears it to `null` when the item is `null`. -/
def select (vm : ViewModelInstance) (item : JSVal) (h : Host) : Except JSErr Host :=
  match item with
  | .null => .ok (koWrite vm.select2.value .null h)
  | item => do
    let v ← select2.id item
    return koWrite vm.select2.value v h

/-- Modelled from the spec: a finite sequence of `select` calls, each applied to
the state the previous one left. -/
def selectAll (vm : ViewModelInstance) : List JSVal → Host → Except JSErr Host
  | [], h => .ok h
  | item :: rest, h => do
    let h1 ← select vm item h
    selectAll vm rest h1

/-! ## Concrete inputs -/

/-- A form whose content item has the fields `Title` (cell 1) and `ExternalID`
(cell 2), with the custom field bound to cell 0. -/
def sampleOptions : Options :=
  { elem := .undefined
    contentItem :=
      { Values := [("Title", .observable (.plain 1)), ("ExternalID", .observable (.plain 2))] }
    fieldBinding := .plain 0
    fieldSetting := .obj [("Label", .str "API Item"), ("Hidden", .bool false)]
    readonly := false }

/-- A host page with an empty store, an empty registry and language `en`. -/
def sampleHost : Host :=
  { cells := []
    pending := []
    CustomInputFormFields := []
    currentLanguageCode := .str "en"
    requests := []
    calls := [] }

/-- The instance the factory builds for `sampleOptions` while the field
`ExternalID` holds no value yet. -/
def sampleViewModel : ViewModelInstance :=
  { ajaxRequest := .null
    selectedValue := .throttled (.plain 0) 500
    select2 :=
      { label := "API Item ID"
        readOnly := false
        value := .plain 0
        multiple := false
        maximumSelectionSize := 1
        minimumInputLength := 0
        placeholder := ""
        ajax :=
          { url := "https://\x7byou-api-url\x7d"
            dataType := "json"
            type := "post"
            quietMillis := 250
            originalValue := .undefined
            term := ""
            cache := true }
        allowClear := false
        dropdownCssClass := "bigdrop" } }

/-- The host page once the sibling field `Title` holds "Acme". -/
def acmeTitleHost : Host :=
  { sampleHost with cells := [(1, .str "Acme")] }

/-- The host page of a saved item whose id is "42" and whose `Title` is empty. -/
def emptyTitleHost : Host :=
  { sampleHost with cells := [(0, .str "42"), (1, .str "")] }

/-- Options of a form whose content item has a `Title` field and no field
named `ExternalID`. -/
def titleOnlyOptions : Options :=
  { sampleOptions with contentItem := { Values := [("Title", .observable (.plain 1))] } }

/-- The host page of a saved item whose id is "42" and whose `Title` is "Acme". -/
def acmeSavedHost : Host :=
  { sampleHost with cells := [(0, .str "42"), (1, .str "Acme")] }

/-- The item `initSelection` builds from the id "42" and the title "Acme". -/
def acmeHydrated : JSVal :=
  .obj [("Value", .str "42"), ("Label", .str "Acme")]

/-- The result item `{"ID":"7","Label":"Widget"}`. -/
def widgetItem : JSVal :=
  .obj [("ID", .str "7"), ("Label", .str "Widget")]

/-- The result item `{"ID":"42","Label":"Acme"}`. -/
def acmeItem : JSVal :=
  .obj [("ID", .str "42"), ("Label", .str "Acme")]

/-! ## Results -/

/-- C2: for every response array `data` and every page, `ajax.results(data, page)`
is the envelope `{results: data}` with the elements of `data` in their order,
whatever the page; the identifier `select2.id(e)` of an element is `e.ID` and
its label `formatResult(e) = formatSelection(e)` is `e.Label`; the response
`[{"ID":"7","Label":"Widget"}]` exposes one item with id "7" and label "Widget". -/
theorem C2_results_envelope (data : List JSVal) (page : JSVal) :
    select2.ajax.results (.arr data) page = .obj [("results", .arr data)]
    ∧ getProp (select2.ajax.results (.arr data) page) "results" = .ok (.arr data)
    ∧ (∀ page2 : JSVal,
        select2.ajax.results (.arr data) page2 = select2.ajax.results (.arr data) page)
    ∧ select2.ajax.results (.arr []) page = .obj [("results", .arr [])]
    ∧ (∀ e : JSVal, select2.id e = getProp e "ID" ∧ formatResult e = getProp e "Label"
        ∧ formatSelection e = formatResult e)
    ∧ (∀ fields : List (String × JSVal),
        select2.id (.obj fields) = .ok ((fields.lookup "ID").getD .undefined)
        ∧ formatResult (.obj fields) = .ok ((fields.lookup "Label").getD .undefined)
        ∧ formatSelection (.obj fields) = .ok ((fields.lookup "Label").getD .undefined))
    ∧ select2.ajax.results (.arr [widgetItem]) page = .obj [("results", .arr [widgetItem])]
    ∧ select2.id widgetItem = .ok (.str "7")
    ∧ formatResult widgetItem = .ok (.str "Widget")
    ∧ formatSelection widgetItem = .ok (.str "Widget") := by
  refine ⟨rfl, ?_, fun _ => rfl, rfl, fun _ => ⟨rfl, rfl, rfl⟩, fun _ => ⟨rfl, rfl, rfl⟩,
    rfl, ?_, ?_, ?_⟩
  · simp [select2.ajax.results, getProp, List.lookup]
  · simp [select2.id, widgetItem, getProp, List.lookup]
  · simp [formatResult, widgetItem, getProp, List.lookup]
  · simp [formatSelection, widgetItem, getProp, List.lookup]

/-- C3: for every term, page, params and language code `L` of the host,
`ajax.data(term, page, params)` is the object with exactly the keys `q` and
`languageCode`, `q` being the term unchanged and `languageCode` being `L`; it
depends on neither `page` nor `params`. -/
theorem C3_ajax_data (h : Host) (term page params : JSVal) :
    select2.ajax.data h term page params
      = .obj [("q", term), ("languageCode", h.currentLanguageCode)]
    ∧ ownKeys (select2.ajax.data h term page params) = ["q", "languageCode"]
    ∧ getProp (select2.ajax.data h term page params) "q" = .ok term
    ∧ getProp (select2.ajax.data h term page params) "languageCode"
        = .ok h.currentLanguageCode
    ∧ (∀ page2 params2 : JSVal,
        select2.ajax.data h term page2 params2 = select2.ajax.data h term page params) := by
  refine ⟨rfl, rfl, ?_, ?_, fun _ _ => rfl⟩
  · simp [select2.ajax.data, getProp, List.lookup]
  · simp [select2.ajax.data, getProp, List.lookup]

/-- C8: for every term and every text, `select2.matcher(term, text)` is true. -/
theorem C8_matcher_accepts (term text : JSVal) :
    select2.matcher term text = true
    ∧ select2.matcher term (.str "") = true
    ∧ select2.matcher (.str "") text = true
    ∧ select2.matcher (.str "wid") (.str "Acme") = true :=
  ⟨rfl, rfl, rfl, rfl⟩

/-- The factory leaves the host state as it found it. -/
theorem ViewModel_host (options : Options) (h h1 : Host) (vm : ViewModelInstance)
    (hvm : ViewModel options h = .ok (vm, h1)) : h1 = h := by
  unfold ViewModel at hvm
  cases hc : callNoArgs h "options.contentItem.Values.ExternalID" (options.value "ExternalID") with
  | error e => simp [hc, bind, Except.bind] at hvm
  | ok v =>
    simp [hc, bind, Except.bind, pure, Except.pure] at hvm
    exact hvm.2.symm

/-- Constructing any number of view models leaves the host state as it was. -/
theorem constructAll_host (all : List Options) (h : Host) : (constructAll all h).2 = h := by
  induction all generalizing h with
  | nil => rfl
  | cons options rest ih =>
    unfold constructAll
    cases hv : ViewModel options h with
    | error e => simpa using ih h
    | ok p =>
      obtain ⟨vm, h1⟩ := p
      have := ViewModel_host options h h1 vm hv
      subst this
      simpa using ih h1

/-- C9: loading the script once leaves the registry equal to its previous
content followed by exactly one new descriptor, which has Label
"Selectlist from API", ReferenceName "SelectlistFromAPI" (ASCII letters and
digits only), Template "SelectListFromAPITemplate", a Render hook and a
ViewModel factory; neither `Render(options)` nor constructing any number of
view models changes the registry. -/
theorem C9_registration (h : Host) :
    (loadScript h).CustomInputFormFields
      = h.CustomInputFormFields ++ [SelectListFromAPICustomField]
    ∧ (loadScript h).CustomInputFormFields.length = h.CustomInputFormFields.length + 1
    ∧ (loadScript h).CustomInputFormFields.take h.CustomInputFormFields.length
        = h.CustomInputFormFields
    ∧ SelectListFromAPICustomField.Label = "Selectlist from API"
    ∧ SelectListFromAPICustomField.ReferenceName = "SelectlistFromAPI"
    ∧ SelectListFromAPICustomField.ReferenceName.toList.all Char.isAlphanum = true
    ∧ SelectListFromAPICustomField.Template = "SelectListFromAPITemplate"
    ∧ SelectListFromAPICustomField.Render = HookRef.Render
    ∧ SelectListFromAPICustomField.ViewModel = HookRef.ViewModel
    ∧ (∀ (options : Options) (s : Host), Render options s = .ok s)
    ∧ (∀ (all : List Options) (s : Host),
        (constructAll all s).2.CustomInputFormFields = s.CustomInputFormFields
        ∧ (constructAll all s).1.length = all.length) := by
  refine ⟨rfl, ?_, ?_, rfl, rfl, ?_, rfl, rfl, rfl, fun _ _ => rfl, fun all s => ⟨?_, ?_⟩⟩
  · simp [loadScript]
  · simp [loadScript]
  · decide
  · rw [constructAll_host]
  · induction all generalizing s with
    | nil => rfl
    | cons options rest ih =>
      unfold constructAll
      cases hv : ViewModel options s with
      | error e => simpa using ih s
      | ok p => simpa using ih p.2

/-! ### Selection -/

/-- The members of an instance the factory has built. -/
theorem ViewModel_members (options : Options) (h h1 : Host) (vm : ViewModelInstance)
    (hvm : ViewModel options h = .ok (vm, h1)) :
    vm.select2.value = options.fieldBinding
    ∧ vm.selectedValue = .throttled options.fieldBinding 500
    ∧ vm.select2.ajax.quietMillis = 250
    ∧ vm.select2.readOnly = false
    ∧ vm.select2.allowClear = false := by
  unfold ViewModel at hvm
  cases hc : callNoArgs h "options.contentItem.Values.ExternalID" (options.value "ExternalID") with
  | error e => simp [hc, bind, Except.bind] at hvm
  | ok v =>
    simp [hc, bind, Except.bind, pure, Except.pure] at hvm
    obtain ⟨hv, -⟩ := hvm
    subst hv
    exact ⟨rfl, rfl, rfl, rfl, rfl⟩

/-- A sequence of selections splits at any point. -/
theorem selectAll_append (vm : ViewModelInstance) (first second : List JSVal) (s : Host) :
    selectAll vm (first ++ second) s = (selectAll vm first s).bind (selectAll vm second) := by
  induction first generalizing s with
  | nil => rfl
  | cons item rest ih =>
    simp only [List.cons_append, selectAll, bind]
    cases select vm item s with
    | error e => rfl
    | ok s1 => exact ih s1

/-- One selection of an item other than `undefined` returns, and leaves in the
cell `select2.value` the value `null` for the item `null` and the ID of the item
otherwise. -/
theorem select_ok (vm : ViewModelInstance) (item : JSVal) (s : Host)
    (hitem : item ≠ .undefined) :
    ∃ s1, select vm item s = .ok s1
      ∧ (item = .null → koRead s1 vm.select2.value = .null)
      ∧ (item ≠ .null → getProp item "ID" = .ok (koRead s1 vm.select2.value)) := by
  cases hv : vm.select2.value with
  | plain cell =>
    cases item <;>
      simp [select, select2.id, getProp, bind, Except.bind, pure, Except.pure, hv, koWrite,
        koRead, List.lookup] at hitem ⊢

/-- A sequence of selections of items other than `undefined` returns. -/
theorem selectAll_ok (vm : ViewModelInstance) (items : List JSVal) (s : Host)
    (hitems : ∀ i ∈ items, i ≠ .undefined) : ∃ s1, selectAll vm items s = .ok s1 := by
  induction items generalizing s with
  | nil => exact ⟨s, rfl⟩
  | cons item rest ih =>
    obtain ⟨s1, hs1, -⟩ := select_ok vm item s (hitems item (List.mem_cons_self _ _))
    obtain ⟨s2, hs2⟩ := ih s1 (fun i hi => hitems i (List.mem_cons_of_mem _ hi))
    exact ⟨s2, by simp [selectAll, hs1, hs2, bind, Except.bind]⟩

/-- C1: `select2.value` is `options.fieldBinding` itself, while `selectedValue`
is another object, the throttled computed built over it; `select2.id(item)` is
`item.ID`; and every finite sequence of `select` calls returns and leaves in
`options.fieldBinding` the ID of the item selected last, or `null` when that item
is `null`. An item is a value of a response or `null`, never `undefined`. -/
theorem C1_select_last_id (options : Options) (h h1 : Host) (vm : ViewModelInstance)
    (hvm : ViewModel options h = .ok (vm, h1)) :
    vm.select2.value = options.fieldBinding
    ∧ vm.selectedValue = .throttled vm.select2.value 500
    ∧ (∀ item : JSVal, select2.id item = getProp item "ID")
    ∧ (∀ fields : List (String × JSVal),
        select2.id (.obj fields) = .ok ((fields.lookup "ID").getD .undefined))
    ∧ (∀ (earlier : List JSVal) (last : JSVal) (s : Host),
        (∀ i ∈ earlier ++ [last], i ≠ .undefined) →
        ∃ s1, selectAll vm (earlier ++ [last]) s = .ok s1
          ∧ (last = .null → koRead s1 options.fieldBinding = .null)
          ∧ (last ≠ .null → getProp last "ID" = .ok (koRead s1 options.fieldBinding))) := by
  obtain ⟨hval, hsel, -, -, -⟩ := ViewModel_members options h h1 vm hvm
  refine ⟨hval, by rw [hsel, hval], fun _ => rfl, fun _ => rfl, ?_⟩
  intro earlier last s hitems
  obtain ⟨s0, hs0⟩ := selectAll_ok vm earlier s
    (fun i hi => hitems i (List.mem_append_left _ hi))
  obtain ⟨s1, hs1, hnull, hid⟩ := select_ok vm last s0
    (hitems last (List.mem_append_right _ (List.mem_singleton_self _)))
  refine ⟨s1, ?_, ?_, ?_⟩
  · rw [selectAll_append, hs0]
    simp [Except.bind, selectAll, hs1, bind]
  · rw [← hval]
    exact hnull
  · rw [← hval]
    exact hid

/-- C1 on the sample form: after the items with ID "7" and ID "42" the binding
holds "42", and after a further `null` it holds `null`. -/
theorem C1_select_last_id_witness :
    ViewModel sampleOptions sampleHost = .ok (sampleViewModel, sampleHost)
    ∧ (∀ i ∈ [widgetItem, acmeItem] ++ [JSVal.null], i ≠ .undefined)
    ∧ (∃ s1, selectAll sampleViewModel ([widgetItem, acmeItem] ++ [JSVal.null]) sampleHost
          = .ok s1
        ∧ (JSVal.null = .null → koRead s1 sampleOptions.fieldBinding = .null)
        ∧ (JSVal.null ≠ .null
          → getProp JSVal.null "ID" = .ok (koRead s1 sampleOptions.fieldBinding)))
    ∧ selectAll sampleViewModel [widgetItem, acmeItem] sampleHost
        = .ok (koWrite (.plain 0) (.str "42") (koWrite (.plain 0) (.str "7") sampleHost))
    ∧ koRead (koWrite (.plain 0) (.str "42") (koWrite (.plain 0) (.str "7") sampleHost))
        sampleOptions.fieldBinding = .str "42" :=
  have hitems : ∀ i ∈ [widgetItem, acmeItem] ++ [JSVal.null], i ≠ .undefined := by
    intro i hi
    simp [widgetItem, acmeItem] at hi
    rcases hi with rfl | rfl | rfl <;> simp
  ⟨rfl, hitems,
    (C1_select_last_id sampleOptions sampleHost sampleHost sampleViewModel rfl).2.2.2.2
      [widgetItem, acmeItem] .null sampleHost hitems,
    rfl, rfl⟩

/-! ### Hydration -/

/-- C4 (amended): `initSelection(element, callback)` invokes the callback exactly
once, on the unchanged host state, when the unwrapped `options.fieldBinding` and
the unwrapped `Title` are both truthy, with the item that carries the id under
`Value` and the title under `Label`; when the id is absent, or the title is
missing or empty, it invokes the callback zero times; in every case it sends no
request, writes no cell and schedules no write. -/
theorem C4_initSelection_guard (options : Options) (element : JSVal) (h : Host) :
    (∀ callback : JSVal → Host → Except JSErr Host,
      truthy (koRead h options.fieldBinding) = true →
      truthy (koUnwrap h (options.value "Title")) = true →
      select2.initSelection options element callback h
        = callback (.obj [("Value", koRead h options.fieldBinding),
            ("Label", koUnwrap h (options.value "Title"))]) h)
    ∧ (∀ callback : JSVal → Host → Except JSErr Host,
      (truthy (koRead h options.fieldBinding) = false
        ∨ truthy (koUnwrap h (options.value "Title")) = false) →
      select2.initSelection options element callback h = .ok h)
    ∧ (∃ h1 : Host, select2.initSelection options element recordCall h = .ok h1
      ∧ h1.calls = h.calls ++
          (if truthy (koRead h options.fieldBinding)
              && truthy (koUnwrap h (options.value "Title")) then
            [.obj [("Value", koRead h options.fieldBinding),
              ("Label", koUnwrap h (options.value "Title"))]]
          else [])
      ∧ h1.requests = h.requests ∧ h1.cells = h.cells ∧ h1.pending = h.pending
      ∧ h1.CustomInputFormFields = h.CustomInputFormFields) := by
  have hfb : koUnwrap h (.observable options.fieldBinding) = koRead h options.fieldBinding :=
    rfl
  refine ⟨?_, ?_, ?_⟩
  · intro callback hval hlabel
    simp only [select2.initSelection, hfb, hval, hlabel, Bool.and_self, if_true]
  · intro callback hor
    rcases hor with hval | hlabel
    · simp only [select2.initSelection, hfb, hval, Bool.false_and, Bool.false_eq_true, if_false]
    · simp only [select2.initSelection, hfb, hlabel, Bool.and_false, Bool.false_eq_true,
        if_false]
  · cases hval : truthy (koRead h options.fieldBinding) <;>
      cases hlabel : truthy (koUnwrap h (options.value "Title")) <;>
      simp only [select2.initSelection, hfb, hval, hlabel, recordCall, Bool.and_self,
        Bool.and_false, Bool.false_and, Bool.false_eq_true, if_true, if_false,
        List.append_nil] <;>
      exact ⟨_, rfl, rfl, rfl, rfl, rfl, rfl⟩

/-- C4 on a saved item with id "42" and title "Acme": the callback receives the
item built from them, once. -/
theorem C4_initSelection_guard_witness :
    truthy (koRead acmeSavedHost sampleOptions.fieldBinding) = true
    ∧ truthy (koUnwrap acmeSavedHost (sampleOptions.value "Title")) = true
    ∧ select2.initSelection sampleOptions .undefined recordCall acmeSavedHost
        = recordCall (.obj [("Value", koRead acmeSavedHost sampleOptions.fieldBinding),
            ("Label", koUnwrap acmeSavedHost (sampleOptions.value "Title"))]) acmeSavedHost :=
  ⟨rfl, rfl,
    (C4_initSelection_guard sampleOptions .undefined acmeSavedHost).1 recordCall rfl rfl⟩

/-- C4 as stated fails: with the id "42" present and an empty title the callback
is invoked zero times, not once. -/
theorem C4_empty_label_no_callback :
    koRead emptyTitleHost sampleOptions.fieldBinding = .str "42"
    ∧ truthy (koRead emptyTitleHost sampleOptions.fieldBinding) = true
    ∧ koUnwrap emptyTitleHost (sampleOptions.value "Title") = .str ""
    ∧ select2.initSelection sampleOptions .undefined recordCall emptyTitleHost
        = .ok emptyTitleHost
    ∧ emptyTitleHost.calls = [] :=
  ⟨rfl, rfl, rfl, rfl, rfl⟩

/-- C5 at the item with ID "42" and Label "Acme": after the selection has set
the binding to "42", with the title "Acme", `initSelection` hands over the item
that carries the id under `Value`; its label is "Acme" as for the selected item,
and `select2.id` of it is `undefined`, not "42". -/
theorem C5_hydrated_item_lacks_ID :
    ViewModel sampleOptions acmeTitleHost = .ok (sampleViewModel, acmeTitleHost)
    ∧ select sampleViewModel acmeItem acmeTitleHost
        = .ok (koWrite (.plain 0) (.str "42") acmeTitleHost)
    ∧ koRead (koWrite (.plain 0) (.str "42") acmeTitleHost) sampleOptions.fieldBinding
        = .str "42"
    ∧ select2.initSelection sampleOptions .undefined recordCall
          (koWrite (.plain 0) (.str "42") acmeTitleHost)
        = recordCall acmeHydrated (koWrite (.plain 0) (.str "42") acmeTitleHost)
    ∧ select2.id acmeItem = .ok (.str "42")
    ∧ formatSelection acmeItem = .ok (.str "Acme")
    ∧ formatSelection acmeHydrated = .ok (.str "Acme")
    ∧ select2.id acmeHydrated = .ok .undefined
    ∧ select2.id acmeHydrated ≠ select2.id acmeItem := by
  refine ⟨rfl, rfl, rfl, rfl, rfl, rfl, rfl, rfl, ?_⟩
  intro hne
  have h1 : select2.id acmeHydrated = .ok .undefined := rfl
  have h2 : select2.id acmeItem = .ok (.str "42") := rfl
  rw [h1, h2] at hne
  cases hne

/-! ### Configuration literals -/

/-- C6 at `readonly = true`: the configuration built has `readOnly` false, and
the factory gives the same result for `readonly = true` as for
`readonly = false`, whatever the other options. -/
theorem C6_readonly_ignored :
    (∃ vm : ViewModelInstance,
      ViewModel { sampleOptions with readonly := true } sampleHost = .ok (vm, sampleHost)
      ∧ vm.select2.readOnly = false)
    ∧ (∀ (options : Options) (h : Host),
      ViewModel { options with readonly := true } h
        = ViewModel { options with readonly := false } h) :=
  ⟨⟨sampleViewModel, rfl, rfl⟩, fun _ _ => rfl⟩

/-- C7 (amended): the quiet period `select2.ajax.quietMillis` of every
configuration the factory builds is 250 milliseconds; the 500 milliseconds are
the throttle of `selectedValue`, the computed built over the field binding. -/
theorem C7_quietMillis_250 (options : Options) (h h1 : Host) (vm : ViewModelInstance)
    (hvm : ViewModel options h = .ok (vm, h1)) :
    vm.select2.ajax.quietMillis = 250
    ∧ 250 ≤ vm.select2.ajax.quietMillis
    ∧ vm.selectedValue = .throttled options.fieldBinding 500 := by
  obtain ⟨-, hsel, hq, -, -⟩ := ViewModel_members options h h1 vm hvm
  exact ⟨hq, by rw [hq], hsel⟩

/-- C7 on the sample form. -/
theorem C7_quietMillis_250_witness :
    ViewModel sampleOptions sampleHost = .ok (sampleViewModel, sampleHost)
    ∧ sampleViewModel.select2.ajax.quietMillis = 250
    ∧ 250 ≤ sampleViewModel.select2.ajax.quietMillis
    ∧ sampleViewModel.selectedValue = .throttled sampleOptions.fieldBinding 500 :=
  ⟨rfl, C7_quietMillis_250 sampleOptions sampleHost sampleHost sampleViewModel rfl⟩

/-- C7 as stated fails: the configuration built for the sample form has a quiet
period below 500 milliseconds. -/
theorem C7_quietMillis_below_500 :
    ViewModel sampleOptions sampleHost = .ok (sampleViewModel, sampleHost)
    ∧ sampleViewModel.select2.ajax.quietMillis = 250
    ∧ ¬ (500 ≤ sampleViewModel.select2.ajax.quietMillis) :=
  ⟨rfl, rfl, by decide⟩

/-! ### Raising -/

/-- C10 at a content item with a `Title` field and no `ExternalID` field:
the factory raises a TypeError at the call `options.contentItem.Values.ExternalID()`,
while reading `Title` the way `initSelection` does raises nothing; for every
object item, with or without `Label` and `ID`, `formatResult`, `formatSelection`
and `select2.id` return the property or `undefined`. -/
theorem C10_missing_ExternalID_raises :
    titleOnlyOptions.value "ExternalID" = .undefined
    ∧ ViewModel titleOnlyOptions sampleHost
        = .error (.TypeError "options.contentItem.Values.ExternalID is not a function")
    ∧ select2.initSelection titleOnlyOptions .undefined recordCall sampleHost = .ok sampleHost
    ∧ (∀ fields : List (String × JSVal),
        formatResult (.obj fields) = .ok ((fields.lookup "Label").getD .undefined)
        ∧ formatSelection (.obj fields) = .ok ((fields.lookup "Label").getD .undefined)
        ∧ select2.id (.obj fields) = .ok ((fields.lookup "ID").getD .undefined))
    ∧ formatResult (.obj []) = .ok .undefined
    ∧ formatSelection (.obj []) = .ok .undefined
    ∧ select2.id (.obj []) = .ok .undefined :=
  ⟨rfl, rfl, rfl, fun _ => ⟨rfl, rfl, rfl⟩, rfl, rfl, rfl⟩

end SelectListFromAPI
